import Mathlib

/-!
Verification of the netatmo data sampler (src/data_sampler.py).

The development is a shallow embedding of the script.  External
collaborators (the lnetatmo client, pandas CSV serialisation, the file
system, the clock) are modelled as explicit data:

* a `WSD` value carries the station listing and the measurement endpoint
  (`lnetatmo.WeatherStationData`; `getMeasure` returns the response body
  directly, the transport envelope is absorbed into the model);
* a `Lib` value carries the pure external time helpers
  (`lnetatmo.toEpoch`, `lnetatmo.toTimeString`, and the `datetime`
  parsing/formatting of `YYYY-MM-DD` day strings, a day being represented
  by its index counted in days since the epoch);
* the file system is a map from path strings to written CSV documents;
  `pandas.DataFrame.to_csv(..., index=False)` is modelled as writing a
  document with header `DateTime,Value` and the list of data rows
  (CSV text serialisation itself is outside the spec's scope);
* the wall clock (`datetime.datetime.now()`) is a fixed number of seconds
  since the epoch for the duration of one run.

Python's dynamic call discipline matters for this program: the source's
`_data_sampler_device` declares five required parameters while both call
sites in `data_sampler_stations` supply four arguments, which Python
rejects with `TypeError` at call time, before the callee body runs.  The
call sites are therefore embedded through an argument-list dispatcher
(`callDataSamplerDevice`) that models positional binding.
-/

namespace Netatmo

/-- Scale constant passed to every measurement request (source line 118). -/
def scaleMax : String := "max"

/-- Path separator used by the `os.path.join` model. -/
def pathSep : String := "/"

/-- Name of the default storage subdirectory next to the script
(`STOREDIR = os.path.join(THISDIR, 'data')`, source line 28). -/
def dataDirName : String := "data"

/-- Model of `os.path.join` on two components. -/
def joinPath (a b : String) : String := a ++ pathSep ++ b

def underscoreSep : String := "_"

def csvExt : String := ".csv"

/-- Suffix appended to the date for the day-start epoch,
`f'{date}_00:00:01'` (source line 113). -/
def dayStartSuffix : String := "_00:00:01"

/-- Suffix appended to the date for the day-end epoch,
`f'{date}_23:59:59'` (source line 114). -/
def dayEndSuffix : String := "_23:59:59"

/-- Column header of every written table, taken from the
`pd.DataFrame({'DateTime': ..., 'Value': ...})` construction
(source line 124). -/
def csvHeader : List String := ["DateTime", "Value"]

/-- Seconds per day, used by the `datetime`/`timedelta` model. -/
def dayLen : Int := 86400

/-- Python exceptions this program can raise or propagate. -/
inductive PyErr where
  | typeError
  | indexError
  | fileNotFoundError
  | apiError (msg : String)
deriving DecidableEq

/-- A written CSV document: column headers and data rows, one row per
sample point (display timestamp, metric value). -/
structure Csv (α : Type) where
  header : List String
  rows : List (String × α)
deriving DecidableEq

/-- The file system: a map from paths to the CSV documents stored there. -/
def FS (α : Type) : Type := String → Option (Csv α)

/-- A file system with no files. -/
def emptyFS (α : Type) : FS α := fun _ => none

variable {α β : Type}

/-- `DataFrame.to_csv` to a path: unconditionally (over)writes the file. -/
def writeFile (p : String) (d : Csv α) (fs : FS α) : FS α :=
  fun q => if q = p then some d else fs q

/-- A device descriptor (station or module), with the dictionary keys
the script reads: `module_name`, `_id`, `data_type`
(source lines 108-110). -/
structure Device where
  module_name : String
  id : String
  data_type : List String
deriving DecidableEq

/-- A station record: its own device fields plus its nested `modules`
list (source lines 167, 172). -/
structure Station extends Device where
  modules : List Device
deriving DecidableEq

/-- One measurement request as issued to `wsd.getMeasure` with keyword
arguments `device_id`, `module_id`, `scale`, `mtype`, `date_begin`,
`date_end` (source line 118). -/
structure MeasureReq where
  device_id : String
  module_id : String
  scale : String
  mtype : String
  date_begin : Int
  date_end : Int
deriving DecidableEq

/-- The authorized session handle (`lnetatmo.WeatherStationData`):
the account's station listing (a mapping keyed by station identifier,
in listing order) and the measurement endpoint.  `getMeasure` takes
`device_id`, `module_id`, `scale`, `mtype`, `date_begin`, `date_end` and
yields the response body: a mapping from epoch timestamp to the list of
values packed at that timestamp (in response order), or a propagated
transport/API error. -/
structure WSD (α : Type) where
  stations : List (String × Station)
  getMeasure : String → String → String → String → Int → Int →
    Except PyErr (List (Int × List α))

/-- Pure external time helpers.  `toEpoch`/`toTimeString` are
`lnetatmo`'s converters between `YYYY-MM-DD_HH:MM:SS` strings and epoch
seconds; `parseDay` is `datetime.strptime(_, "%Y-%m-%d")` returning the
day index of the parsed midnight; `fmtDay` is `strftime('%Y-%m-%d')` of
a day index. -/
structure Lib where
  toEpoch : String → Int
  toTimeString : Int → String
  parseDay : String → Int
  fmtDay : Int → String

/-- The credentials record with the mandatory keys documented for
`_init_wsd` (source lines 39-50). -/
structure AuthConfig where
  clientID : String
  clientSecret : String
  username : String
  password : String
  scope : String
deriving DecidableEq

/-- Network activity observable during session initialization. -/
inductive NetEvent where
  | tokenExchange
deriving DecidableEq

/-- Environment of `_init_wsd`: the contents of the local
`authorization.json` next to the script when that file exists, and the
external token exchange (`lnetatmo.ClientAuth` followed by the `WSD`
constructor), which either yields an authorized handle or fails with an
authentication/transport error of its own. -/
structure InitEnv (α : Type) where
  configFile : Option AuthConfig
  clientAuth : AuthConfig → Except String (WSD α)

/-- Errors of the external auth layer propagate unmodified as API
errors; in particular the auth layer never raises the script's
missing-configuration `FileNotFoundError`. -/
def mapApiErr : Except String β → Except PyErr β
  | .ok b => .ok b
  | .error m => .error (.apiError m)

/-- `_init_wsd(auth)` (source lines 30-77): when `auth` is missing, load
the credentials file, failing with `FileNotFoundError` when it does not
exist; then perform the external token exchange.  The second component
is the network activity trace. -/
def initWsd (env : InitEnv α) (auth : Option AuthConfig) :
    Except PyErr (WSD α) × List NetEvent :=
  match auth with
  | some a => (mapApiErr (env.clientAuth a), [NetEvent.tokenExchange])
  | none =>
    match env.configFile with
    | some a => (mapApiErr (env.clientAuth a), [NetEvent.tokenExchange])
    | none => (Except.error PyErr.fileNotFoundError, [])

/-- Result of a sampling run: the file system afterwards, the
measurement requests issued (in order), and the exception that aborted
the run, if any. -/
structure WalkOut (α : Type) where
  fs : FS α
  reqs : List MeasureReq
  err : Option PyErr

/-- The output file name `f'{date}_{name}_{mtype}.csv'`
(source line 126). -/
def fileName (date name mtype : String) : String :=
  date ++ underscoreSep ++ name ++ underscoreSep ++ mtype ++ csvExt

/-- Full output path `os.path.join(dp, f'{date}_{name}_{mtype}.csv')`
(source line 126). -/
def filePath (dp date name mtype : String) : String :=
  joinPath dp (fileName date name mtype)

/-- `[value[0] for value in data.values()]` (source line 122): take the
first packed value of every timestamp entry; an empty entry raises
`IndexError` at that point. -/
def firstVals : List (Int × List α) → Except PyErr (List α)
  | [] => Except.ok []
  | kv :: rest =>
    match kv.2 with
    | [] => Except.error PyErr.indexError
    | v :: _ => (firstVals rest).map (fun vs => v :: vs)

/-- One iteration of the metric loop of `_data_sampler_device`
(source lines 116-126): request the metric's series, extract the first
packed value per timestamp, convert the epoch keys to display strings,
and write the two-column table. -/
def sampleMetric (w : WSD α) (lib : Lib) (base : String) (dev : Device)
    (date dp : String) (tstart tend : Int) (mtype : String) (fs : FS α) :
    WalkOut α :=
  let req : MeasureReq := ⟨base, dev.id, scaleMax, mtype, tstart, tend⟩
  match w.getMeasure base dev.id scaleMax mtype tstart tend with
  | .error e => ⟨fs, [req], some e⟩
  | .ok data =>
    match firstVals data with
    | .error e => ⟨fs, [req], some e⟩
    | .ok vals =>
      let dts := data.map (fun kv => lib.toTimeString kv.1)
      ⟨writeFile (filePath dp date dev.module_name mtype)
          ⟨csvHeader, dts.zip vals⟩ fs,
        [req], none⟩

/-- The `for mtype in mtypes` loop of `_data_sampler_device`
(source line 116): fail-fast, files written by earlier metrics remain. -/
def deviceLoop (w : WSD α) (lib : Lib) (base : String) (dev : Device)
    (date dp : String) (tstart tend : Int) :
    List String → FS α → WalkOut α
  | [], fs => ⟨fs, [], none⟩
  | m :: ms, fs =>
    let r := sampleMetric w lib base dev date dp tstart tend m fs
    match r.err with
    | some _ => r
    | none =>
      let s := deviceLoop w lib base dev date dp tstart tend ms r.fs
      ⟨s.fs, r.reqs ++ s.reqs, s.err⟩

/-- The body of `_data_sampler_device(wsd, base, device, date, dp)`
(source lines 79-126): compute the day window, then sample every
declared metric type in listed order. -/
def dataSamplerDevice (w : WSD α) (lib : Lib) (base : String)
    (dev : Device) (date dp : String) (fs : FS α) : WalkOut α :=
  let tstart := lib.toEpoch (date ++ dayStartSuffix)
  let tend := lib.toEpoch (date ++ dayEndSuffix)
  deviceLoop w lib base dev date dp tstart tend dev.data_type fs

/-- Specification companion of `sampleMetric`: the write this metric
performs (if any), the request it issues, and the error it raises,
independent of the current file system. -/
def metricOutcome (w : WSD α) (lib : Lib) (base : String) (dev : Device)
    (date dp : String) (tstart tend : Int) (mtype : String) :
    List (String × Csv α) × List MeasureReq × Option PyErr :=
  let req : MeasureReq := ⟨base, dev.id, scaleMax, mtype, tstart, tend⟩
  match w.getMeasure base dev.id scaleMax mtype tstart tend with
  | .error e => ([], [req], some e)
  | .ok data =>
    match firstVals data with
    | .error e => ([], [req], some e)
    | .ok vals =>
      let dts := data.map (fun kv => lib.toTimeString kv.1)
      ([(filePath dp date dev.module_name mtype, ⟨csvHeader, dts.zip vals⟩)],
       [req], none)

/-- Specification companion of `deviceLoop`: the ordered list of file
writes of the whole metric loop, the requests issued, and the aborting
error. -/
def loopOutcome (w : WSD α) (lib : Lib) (base : String) (dev : Device)
    (date dp : String) (tstart tend : Int) :
    List String → List (String × Csv α) × List MeasureReq × Option PyErr
  | [] => ([], [], none)
  | m :: ms =>
    let r := metricOutcome w lib base dev date dp tstart tend m
    match r.2.2 with
    | some e => (r.1, r.2.1, some e)
    | none =>
      let s := loopOutcome w lib base dev date dp tstart tend ms
      (r.1 ++ s.1, r.2.1 ++ s.2.1, s.2.2)

/-- Apply a list of file writes in order (last write to a path wins). -/
def applyWrites : List (String × Csv α) → FS α → FS α
  | [], fs => fs
  | wr :: ws, fs => applyWrites ws (writeFile wr.1 wr.2 fs)

/-- Runtime argument values that can be passed to
`_data_sampler_device`. -/
inductive PyVal (α : Type) where
  | wsd (w : WSD α)
  | str (s : String)
  | dev (d : Device)

/-- Python positional-call binding for `_data_sampler_device`, which
declares five required parameters `(wsd, base, device, date, dp)`
(source line 79): a call whose argument list does not bind all five
raises `TypeError` before the body runs. -/
def callDataSamplerDevice (lib : Lib) (args : List (PyVal α)) (fs : FS α) :
    WalkOut α :=
  match args with
  | [PyVal.wsd w, PyVal.str base, PyVal.dev d, PyVal.str date, PyVal.str dp] =>
      dataSamplerDevice w lib base d date dp fs
  | _ => ⟨fs, [], some PyErr.typeError⟩

/-- The per-station module loop of `data_sampler_stations`
(source lines 172-173): `_data_sampler_device(wsd, base, module, date)`
— four arguments. -/
def moduleLoop (lib : Lib) (w : WSD α) (base : String) (date : String) :
    List Device → FS α → WalkOut α
  | [], fs => ⟨fs, [], none⟩
  | m :: ms, fs =>
    let r := callDataSamplerDevice lib
      [PyVal.wsd w, PyVal.str base, PyVal.dev m, PyVal.str date] fs
    match r.err with
    | some _ => r
    | none =>
      let s := moduleLoop lib w base date ms r.fs
      ⟨s.fs, r.reqs ++ s.reqs, s.err⟩

/-- The station loop of `data_sampler_stations` (source lines 165-173):
for each station, first the station itself with
`_data_sampler_device(wsd, base, station, date)` — four arguments —
then its modules. -/
def stationLoop (lib : Lib) (w : WSD α) (date : String) :
    List (String × Station) → FS α → WalkOut α
  | [], fs => ⟨fs, [], none⟩
  | (_, st) :: rest, fs =>
    let base := st.id
    let r := callDataSamplerDevice lib
      [PyVal.wsd w, PyVal.str base, PyVal.dev st.toDevice, PyVal.str date] fs
    match r.err with
    | some _ => r
    | none =>
      let r2 := moduleLoop lib w base date st.modules r.fs
      match r2.err with
      | some _ => ⟨r2.fs, r.reqs ++ r2.reqs, r2.err⟩
      | none =>
        let s := stationLoop lib w date rest r2.fs
        ⟨s.fs, r.reqs ++ r2.reqs ++ s.reqs, s.err⟩

/-- Python string-option truthiness for defaulted parameters:
`None` and the empty string both select the default. -/
def optStr (d : String) : Option String → String
  | none => d
  | some s => if s = "" then d else s

/-- Ambient environment of one run: external pure helpers, the session
initialization environment, the script's directory (`THISDIR`), and the
wall clock in epoch seconds (`datetime.datetime.now()`), held fixed for
the run. -/
structure SysEnv (α : Type) where
  lib : Lib
  init : InitEnv α
  thisDir : String
  now : Int

/-- The default date: yesterday's calendar date,
`(datetime.now() - timedelta(days=1)).strftime("%Y-%m-%d")`
(source line 159). -/
def yesterdayStr (sys : SysEnv α) : String :=
  sys.lib.fmtDay (Int.fdiv (sys.now - dayLen) dayLen)

/-- The default storage directory `STOREDIR` (source lines 28, 162). -/
def storeDir (sys : SysEnv α) : String := joinPath sys.thisDir dataDirName

/-- Body of `data_sampler_stations` after the session is available
(source lines 158-173): default the date and the save directory
(`dp_save` is bound but never used afterwards), then walk the stations. -/
def walkerBody (sys : SysEnv α) (w : WSD α) (date dp_save : Option String)
    (fs : FS α) : WalkOut α :=
  let date1 := optStr (yesterdayStr sys) date
  let _dp := optStr (storeDir sys) dp_save
  stationLoop sys.lib w date1 w.stations fs

/-- `data_sampler_stations(wsd, date, dp_save)` (source lines 129-173).
The second component counts how many times `_init_wsd` ran. -/
def dataSamplerStations (sys : SysEnv α) (wsd : Option (WSD α))
    (date dp_save : Option String) (fs : FS α) : WalkOut α × Nat :=
  match wsd with
  | some w => (walkerBody sys w date dp_save fs, 0)
  | none =>
    match (initWsd sys.init none).1 with
    | .error e => (⟨fs, [], some e⟩, 1)
    | .ok w => (walkerBody sys w date dp_save fs, 1)

/-- Result of a period run: final file system, the date strings the
daily walker was invoked with (in order), the aborting error, and the
number of `_init_wsd` runs. -/
structure PeriodOut (α : Type) where
  fs : FS α
  days : List String
  err : Option PyErr
  inits : Nat

/-- The `while n > 0` loop of `data_sampler_stations_period`
(source lines 211-215): each step samples the day
`(now - timedelta(days=n)).strftime('%Y-%m-%d')` with the shared
session handle, then decrements `n`. -/
def periodLoop (sys : SysEnv α) (w : WSD α) (dp : String) :
    Nat → FS α → PeriodOut α
  | 0, fs => ⟨fs, [], none, 0⟩
  | k + 1, fs =>
    let sday := sys.lib.fmtDay (Int.fdiv (sys.now - ((k : Int) + 1) * dayLen) dayLen)
    let r := dataSamplerStations sys (some w) (some sday) (some dp) fs
    match r.1.err with
    | some e => ⟨r.1.fs, [sday], some e, r.2⟩
    | none =>
      let s := periodLoop sys w dp k r.1.fs
      ⟨s.fs, sday :: s.days, s.err, r.2 + s.inits⟩

/-- `data_sampler_stations_period(date_start, dp_save)`
(source lines 176-215): default the save directory, initialize the
session once, compute `n = (now - strptime(date_start)).days`
(`timedelta.days` floors, hence `Int.fdiv`), then run the daily walker
while `n > 0`. -/
def dataSamplerStationsPeriod (sys : SysEnv α) (date_start : String)
    (dp_save : Option String) (fs : FS α) : PeriodOut α :=
  let dp := optStr (storeDir sys) dp_save
  match (initWsd sys.init none).1 with
  | .error e => ⟨fs, [], some e, 1⟩
  | .ok w =>
    let n := Int.fdiv (sys.now - sys.lib.parseDay date_start * dayLen) dayLen
    let r := periodLoop sys w dp n.toNat fs
    ⟨r.fs, r.days, r.err, 1 + r.inits⟩

/-- A session whose measurement endpoint always returns the same body. -/
def constWsd (sts : List (String × Station)) (body : List (Int × List α)) :
    WSD α :=
  ⟨sts, fun _ _ _ _ _ _ => Except.ok body⟩

/-- The module of the spec's walkthrough scenario. -/
def scenarioModule : Device := ⟨"Rain", "M1", ["Rain"]⟩

/-- The station of the spec's walkthrough scenario. -/
def scenarioStation : Station := ⟨⟨"Outdoor", "S1", ["Temperature"]⟩, [scenarioModule]⟩

/-- Session handle of the spec's walkthrough scenario. -/
def scenarioWsd : WSD Int := constWsd [("S1", scenarioStation)] []

/-- Degenerate external helpers for concrete evaluations. -/
def lib0 : Lib := ⟨fun _ => 0, fun _ => "", fun _ => 0, fun _ => ""⟩

/-- External helpers whose day formatter is injective on day indices. -/
def libW : Lib := ⟨fun _ => 0, fun _ => "", fun _ => 0, fun i => toString i⟩

def authW : AuthConfig := ⟨"id", "secret", "user", "pw", "read_station"⟩

/-- A session with no stations at all. -/
def wEmpty : WSD Int := constWsd [] []

def initW : InitEnv Int := ⟨some authW, fun _ => Except.ok wEmpty⟩

/-- An initialization environment with neither credentials source. -/
def initNone : InitEnv Int := ⟨none, fun _ => Except.ok wEmpty⟩

def homeDir : String := "home"

def scenarioDate : String := "2024-03-01"

def outDirW : String := "out"

def mtypeRain : String := "Rain"

def scenarioSys : SysEnv Int := ⟨lib0, initNone, homeDir, 0⟩

/-- System environment for the period-walker evaluation: the clock
stands two days and 100 seconds past the epoch. -/
def sysW : SysEnv Int := ⟨libW, initW, homeDir, 2 * 86400 + 100⟩

/-- The single request issued when sampling the scenario station
directly with all five arguments. -/
def req0 : MeasureReq := ⟨"S1", "S1", scaleMax, "Temperature", 0, 0⟩

/-- A measurement body with one timestamp carrying no packed values. -/
def wBad : WSD Int := constWsd [] [(0, [])]

/-- Looking up a path after a list of writes: the value of the last
write to that path, else the prior contents. -/
theorem applyWrites_apply (W : List (String × Csv α)) (fs : FS α) (q : String) :
    applyWrites W fs q =
      match W.reverse.find? (fun wr => wr.1 == q) with
      | some wr => some wr.2
      | none => fs q := by
  induction W generalizing fs with
  | nil => simp [applyWrites]
  | cons wr ws ih =>
    simp only [applyWrites]
    rw [ih]
    rw [List.reverse_cons, List.find?_append]
    cases h : ws.reverse.find? (fun wr2 => wr2.1 == q) with
    | some u => simp
    | none =>
      by_cases hq : wr.1 = q
      · simp [List.find?, hq, writeFile]
      · have hq2 : (wr.1 == q) = false := by simp [hq]
        simp [List.find?, hq2, writeFile, Ne.symm hq]

/-- Replaying the identical write list changes nothing further. -/
theorem applyWrites_idem (W : List (String × Csv α)) (fs : FS α) :
    applyWrites W (applyWrites W fs) = applyWrites W fs := by
  funext q
  rw [applyWrites_apply W (applyWrites W fs) q, applyWrites_apply W fs q]
  cases h : W.reverse.find? (fun wr => wr.1 == q) with
  | some u => simp
  | none => simp [applyWrites_apply W fs q, h]

/-- A path no write touches keeps its prior contents. -/
theorem applyWrites_not_mem (W : List (String × Csv α)) (fs : FS α) (q : String)
    (h : ∀ wr ∈ W, wr.1 ≠ q) : applyWrites W fs q = fs q := by
  rw [applyWrites_apply]
  have hn : W.reverse.find? (fun wr => wr.1 == q) = none := by
    refine List.find?_eq_none.mpr ?_
    intro x hx
    simpa using h x (List.mem_reverse.mp hx)
  simp [hn]

/-- When every write stores the same document, any written path holds
that document afterwards. -/
theorem applyWrites_const (W : List (String × Csv α)) (fs : FS α) (q : String)
    (d : Csv α) (hall : ∀ wr ∈ W, wr.2 = d) (hmem : q ∈ W.map Prod.fst) :
    applyWrites W fs q = some d := by
  induction W generalizing fs with
  | nil => simp at hmem
  | cons wr ws ih =>
    simp only [applyWrites]
    by_cases hq : q ∈ ws.map Prod.fst
    · exact ih _ (fun x hx => hall x (List.mem_cons_of_mem _ hx)) hq
    · have hq1 : wr.1 = q := by
        rcases List.mem_map.mp hmem with ⟨x, hx, hx1⟩
        rcases List.mem_cons.mp hx with hx2 | hx2
        · rw [hx2] at hx1; exact hx1
        · exact absurd (List.mem_map.mpr ⟨x, hx2, hx1⟩) hq
      have hrest : ∀ wr2 ∈ ws, wr2.1 ≠ q := by
        intro x hx hx1
        exact hq (List.mem_map.mpr ⟨x, hx, hx1⟩)
      rw [applyWrites_not_mem ws _ q hrest]
      have : wr.2 = d := hall wr (List.mem_cons_self _ _)
      simp [writeFile, hq1.symm, this]

/-- Writes distribute over concatenation. -/
theorem applyWrites_append (W1 W2 : List (String × Csv α)) (fs : FS α) :
    applyWrites (W1 ++ W2) fs = applyWrites W2 (applyWrites W1 fs) := by
  induction W1 generalizing fs with
  | nil => simp [applyWrites]
  | cons wr ws ih => simp [applyWrites, ih]

/-- `sampleMetric` factors through its file-system-independent
outcome. -/
theorem sampleMetric_decomp (w : WSD α) (lib : Lib) (base : String)
    (dev : Device) (date dp : String) (tstart tend : Int) (m : String)
    (fs : FS α) :
    sampleMetric w lib base dev date dp tstart tend m fs =
      ⟨applyWrites (metricOutcome w lib base dev date dp tstart tend m).1 fs,
       (metricOutcome w lib base dev date dp tstart tend m).2.1,
       (metricOutcome w lib base dev date dp tstart tend m).2.2⟩ := by
  unfold sampleMetric metricOutcome
  cases hg : w.getMeasure base dev.id scaleMax m tstart tend with
  | error e => simp [applyWrites]
  | ok data =>
    cases hv : firstVals data with
    | error e => simp [hv, applyWrites]
    | ok vals => simp [hv, applyWrites]

/-- `deviceLoop` factors through its file-system-independent outcome. -/
theorem deviceLoop_decomp (w : WSD α) (lib : Lib) (base : String)
    (dev : Device) (date dp : String) (tstart tend : Int)
    (ms : List String) : ∀ fs : FS α,
    deviceLoop w lib base dev date dp tstart tend ms fs =
      ⟨applyWrites (loopOutcome w lib base dev date dp tstart tend ms).1 fs,
       (loopOutcome w lib base dev date dp tstart tend ms).2.1,
       (loopOutcome w lib base dev date dp tstart tend ms).2.2⟩ := by
  induction ms with
  | nil => intro fs; simp [deviceLoop, loopOutcome, applyWrites]
  | cons m ms ih =>
    intro fs
    simp only [deviceLoop, loopOutcome, sampleMetric_decomp]
    cases he : (metricOutcome w lib base dev date dp tstart tend m).2.2 with
    | some e => simp [he]
    | none => simp [he, ih, applyWrites_append]

/-- `_data_sampler_device` factors through its outcome. -/
theorem dataSamplerDevice_decomp (w : WSD α) (lib : Lib) (base : String)
    (dev : Device) (date dp : String) (fs : FS α) :
    dataSamplerDevice w lib base dev date dp fs =
      ⟨applyWrites (loopOutcome w lib base dev date dp
          (lib.toEpoch (date ++ dayStartSuffix))
          (lib.toEpoch (date ++ dayEndSuffix)) dev.data_type).1 fs,
       (loopOutcome w lib base dev date dp
          (lib.toEpoch (date ++ dayStartSuffix))
          (lib.toEpoch (date ++ dayEndSuffix)) dev.data_type).2.1,
       (loopOutcome w lib base dev date dp
          (lib.toEpoch (date ++ dayStartSuffix))
          (lib.toEpoch (date ++ dayEndSuffix)) dev.data_type).2.2⟩ := by
  unfold dataSamplerDevice
  exact deviceLoop_decomp w lib base dev date dp _ _ dev.data_type fs

/-- Claim C7: running the Device Sampler twice for the same
`(date, device, metric)` inputs with identical upstream data leaves the
file system identical to running it once — the second run overwrites
each produced file with the same content, with no accumulation or
duplication of rows. -/
theorem c7_device_sampler_idempotent (α : Type) (w : WSD α) (lib : Lib)
    (base : String) (dev : Device) (date dp : String) (fs : FS α) :
    dataSamplerDevice w lib base dev date dp
        (dataSamplerDevice w lib base dev date dp fs).fs
      = dataSamplerDevice w lib base dev date dp fs := by
  rw [dataSamplerDevice_decomp w lib base dev date dp fs]
  rw [dataSamplerDevice_decomp w lib base dev date dp _]
  rw [applyWrites_idem]

/-- Every branch of `metricOutcome` issues exactly the one request with
`device_id = base` and `module_id = dev.id`. -/
theorem metricOutcome_reqs (w : WSD α) (lib : Lib) (base : String)
    (dev : Device) (date dp : String) (tstart tend : Int) (m : String) :
    (metricOutcome w lib base dev date dp tstart tend m).2.1
      = [⟨base, dev.id, scaleMax, m, tstart, tend⟩] := by
  unfold metricOutcome
  cases hg : w.getMeasure base dev.id scaleMax m tstart tend with
  | error e => simp
  | ok data => cases hv : firstVals data <;> simp [hv]

/-- Every request of a metric loop addresses the parent `base` and the
device's own identifier. -/
theorem loopOutcome_reqs (w : WSD α) (lib : Lib) (base : String)
    (dev : Device) (date dp : String) (tstart tend : Int)
    (ms : List String) (r : MeasureReq)
    (hr : r ∈ (loopOutcome w lib base dev date dp tstart tend ms).2.1) :
    r.device_id = base ∧ r.module_id = dev.id := by
  induction ms with
  | nil => simp [loopOutcome] at hr
  | cons m ms ih =>
    simp only [loopOutcome] at hr
    cases he : (metricOutcome w lib base dev date dp tstart tend m).2.2 with
    | some e =>
      rw [he] at hr
      simp only [metricOutcome_reqs] at hr
      rcases List.mem_singleton.mp hr with rfl
      exact ⟨rfl, rfl⟩
    | none =>
      rw [he] at hr
      simp only [metricOutcome_reqs, List.singleton_append] at hr
      rcases List.mem_cons.mp hr with rfl | hr2
      · exact ⟨rfl, rfl⟩
      · exact ih hr2

/-- Claim C4: every measurement request the Device Sampler makes uses
the supplied parent addressing key `base` as `device_id` and the
device's own identifier as `module_id`; no request uses the device's
own identifier as the addressing key unless it coincides with the
parent's.  At both call sites of `data_sampler_stations`, `base` is the
owning station's `_id` (source line 167), so a module is never queried
standalone. -/
theorem c4_requests_use_parent_station_id (α : Type) (w : WSD α)
    (lib : Lib) (base : String) (dev : Device) (date dp : String)
    (fs : FS α) (r : MeasureReq)
    (hr : r ∈ (dataSamplerDevice w lib base dev date dp fs).reqs) :
    r.device_id = base ∧ r.module_id = dev.id := by
  rw [dataSamplerDevice_decomp] at hr
  exact loopOutcome_reqs w lib base dev date dp _ _ dev.data_type r hr

/-- Witness for C4 at the scenario station sampled with five
arguments. -/
theorem c4_requests_use_parent_station_id_witness :
    req0.device_id = scenarioStation.id
      ∧ req0.module_id = scenarioStation.toDevice.id :=
  c4_requests_use_parent_station_id Int scenarioWsd lib0 scenarioStation.id
    scenarioStation.toDevice scenarioDate outDirW (emptyFS Int) req0 (by decide)

/-- Claim C5: for a metric response with two timestamps each packing a
value and an extra co-measured value, the written table holds exactly
the rows `(timestamp t1, v1)` and `(timestamp t2, v2)`: only the first
packed value per timestamp is kept, the extras are discarded. -/
theorem c5_first_value_only (α : Type) (lib : Lib)
    (sts : List (String × Station)) (t1 t2 : Int) (v1 e1 v2 e2 : α)
    (base name ident m date dp : String) (fs : FS α) :
    ((dataSamplerDevice (constWsd sts [(t1, [v1, e1]), (t2, [v2, e2])])
        lib base ⟨name, ident, [m]⟩ date dp fs).fs
        (filePath dp date name m)
      = some ⟨csvHeader,
          [(lib.toTimeString t1, v1), (lib.toTimeString t2, v2)]⟩)
    ∧ (dataSamplerDevice (constWsd sts [(t1, [v1, e1]), (t2, [v2, e2])])
        lib base ⟨name, ident, [m]⟩ date dp fs).err = none := by
  constructor <;>
    simp [dataSamplerDevice, deviceLoop, sampleMetric, constWsd, firstVals,
      Except.map, writeFile, List.zip]

/-- One metric sampled against an everywhere-empty measurement body:
a header-only write, one request, no error. -/
theorem metricOutcome_empty_body (lib : Lib) (sts : List (String × Station))
    (base : String) (dev : Device) (date dp : String) (tstart tend : Int)
    (m : String) :
    metricOutcome (constWsd sts ([] : List (Int × List α))) lib base dev
        date dp tstart tend m
      = ([(filePath dp date dev.module_name m, (⟨csvHeader, []⟩ : Csv α))],
         [⟨base, dev.id, scaleMax, m, tstart, tend⟩], none) := rfl

/-- With an everywhere-empty measurement body, the metric loop writes a
header-only document for every metric, issues one request per metric
and raises nothing. -/
theorem loopOutcome_empty_body (lib : Lib) (sts : List (String × Station))
    (base : String) (dev : Device) (date dp : String) (tstart tend : Int)
    (ms : List String) :
    loopOutcome (constWsd sts ([] : List (Int × List α))) lib base dev
        date dp tstart tend ms
      = (ms.map (fun t => (filePath dp date dev.module_name t,
            (⟨csvHeader, []⟩ : Csv α))),
         ms.map (fun t => ⟨base, dev.id, scaleMax, t, tstart, tend⟩),
         none) := by
  induction ms with
  | nil => simp [loopOutcome]
  | cons m ms ih =>
    simp only [loopOutcome, metricOutcome_empty_body]
    rw [ih]
    simp

/-- Claim C6: when the API returns an empty measurement mapping for
every metric, the Device Sampler still writes the output file of each
declared metric, and its content is exactly the header row
`DateTime,Value` with no data rows. -/
theorem c6_empty_response_writes_header_only (α : Type) (lib : Lib)
    (sts : List (String × Station)) (base : String) (dev : Device)
    (date dp : String) (fs : FS α) (m : String)
    (hm : m ∈ dev.data_type) :
    ((dataSamplerDevice (constWsd sts ([] : List (Int × List α))) lib base
        dev date dp fs).fs (filePath dp date dev.module_name m)
      = some ⟨csvHeader, []⟩)
    ∧ (dataSamplerDevice (constWsd sts ([] : List (Int × List α))) lib base
        dev date dp fs).err = none := by
  rw [dataSamplerDevice_decomp]
  rw [loopOutcome_empty_body]
  refine ⟨?_, rfl⟩
  refine applyWrites_const _ fs _ _ ?_ ?_
  · intro wr hw
    rcases List.mem_map.mp hw with ⟨t, _, rfl⟩
    rfl
  · refine List.mem_map.mpr ?_
    refine ⟨(filePath dp date dev.module_name m, ⟨csvHeader, []⟩), ?_, rfl⟩
    exact List.mem_map.mpr ⟨m, hm, rfl⟩

/-- Witness for C6 at the scenario module with an empty response. -/
theorem c6_empty_response_writes_header_only_witness :
    ((dataSamplerDevice (constWsd ([] : List (String × Station))
        ([] : List (Int × List Int))) lib0 scenarioStation.id
        scenarioModule scenarioDate outDirW (emptyFS Int)).fs
        (filePath outDirW scenarioDate scenarioModule.module_name mtypeRain)
      = some ⟨csvHeader, []⟩)
    ∧ (dataSamplerDevice (constWsd ([] : List (String × Station))
        ([] : List (Int × List Int))) lib0 scenarioStation.id
        scenarioModule scenarioDate outDirW (emptyFS Int)).err = none :=
  c6_empty_response_writes_header_only Int lib0 [] scenarioStation.id
    scenarioModule scenarioDate outDirW (emptyFS Int) mtypeRain (by decide)

/-- The unguarded `value[0]` extraction: when any timestamp entry packs
no values, the comprehension raises `IndexError`. -/
theorem firstVals_of_empty_entry (data : List (Int × List α))
    (h : ∃ kv, kv ∈ data ∧ kv.2 = []) :
    firstVals data = Except.error PyErr.indexError := by
  induction data with
  | nil =>
    rcases h with ⟨kv, hkv, _⟩
    simp at hkv
  | cons kv rest ih =>
    rcases h with ⟨kv2, hkv2, hempty⟩
    rcases List.mem_cons.mp hkv2 with h1 | h1
    · rw [h1] at hempty
      simp [firstVals, hempty]
    · cases hk : kv.2 with
      | nil => simp [firstVals, hk]
      | cons v vs =>
        have hrest := ih ⟨kv2, h1, hempty⟩
        simp [firstVals, hk, hrest, Except.map]

/-- A metric loop splits around an error-free prefix. -/
theorem loopOutcome_append (w : WSD α) (lib : Lib) (base : String)
    (dev : Device) (date dp : String) (tstart tend : Int)
    (pre ms : List String)
    (h : (loopOutcome w lib base dev date dp tstart tend pre).2.2 = none) :
    loopOutcome w lib base dev date dp tstart tend (pre ++ ms)
      = ((loopOutcome w lib base dev date dp tstart tend pre).1
           ++ (loopOutcome w lib base dev date dp tstart tend ms).1,
         (loopOutcome w lib base dev date dp tstart tend pre).2.1
           ++ (loopOutcome w lib base dev date dp tstart tend ms).2.1,
         (loopOutcome w lib base dev date dp tstart tend ms).2.2) := by
  induction pre with
  | nil => simp [loopOutcome]
  | cons t pre ih =>
    simp only [List.cons_append, loopOutcome] at h ⊢
    cases he : (metricOutcome w lib base dev date dp tstart tend t).2.2 with
    | some e => simp [he] at h
    | none =>
      simp only [he] at h ⊢
      simp only [List.append_eq]
      rw [ih h]
      simp [List.append_assoc]

/-- Claim C10: when the measurement mapping returned for a metric `m`
contains a timestamp whose packed value list is empty, the Device
Sampler aborts that metric with `IndexError` and writes no file for it
(earlier metrics, assumed error-free and writing to other paths, keep
their files; the per-metric postcondition thus needs every timestamp's
value list non-empty). -/
theorem c10_empty_value_list_index_error (α : Type) (w : WSD α)
    (lib : Lib) (base : String) (dev : Device) (date dp : String)
    (fs : FS α) (pre rest : List String) (m : String)
    (data : List (Int × List α))
    (h1 : dev.data_type = pre ++ m :: rest)
    (h2 : (loopOutcome w lib base dev date dp
            (lib.toEpoch (date ++ dayStartSuffix))
            (lib.toEpoch (date ++ dayEndSuffix)) pre).2.2 = none)
    (h3 : w.getMeasure base dev.id scaleMax m
            (lib.toEpoch (date ++ dayStartSuffix))
            (lib.toEpoch (date ++ dayEndSuffix)) = Except.ok data)
    (h4 : ∃ kv, kv ∈ data ∧ kv.2 = [])
    (h5 : ∀ wr ∈ (loopOutcome w lib base dev date dp
            (lib.toEpoch (date ++ dayStartSuffix))
            (lib.toEpoch (date ++ dayEndSuffix)) pre).1,
            wr.1 ≠ filePath dp date dev.module_name m)
    (h6 : fs (filePath dp date dev.module_name m) = none) :
    (dataSamplerDevice w lib base dev date dp fs).err
        = some PyErr.indexError
    ∧ (dataSamplerDevice w lib base dev date dp fs).fs
        (filePath dp date dev.module_name m) = none := by
  have hm : metricOutcome w lib base dev date dp
      (lib.toEpoch (date ++ dayStartSuffix))
      (lib.toEpoch (date ++ dayEndSuffix)) m
      = ([], [⟨base, dev.id, scaleMax, m,
            lib.toEpoch (date ++ dayStartSuffix),
            lib.toEpoch (date ++ dayEndSuffix)⟩],
         some PyErr.indexError) := by
    unfold metricOutcome
    rw [h3]
    simp [firstVals_of_empty_entry data h4]
  have hcons : loopOutcome w lib base dev date dp
      (lib.toEpoch (date ++ dayStartSuffix))
      (lib.toEpoch (date ++ dayEndSuffix)) (m :: rest)
      = ([], [⟨base, dev.id, scaleMax, m,
            lib.toEpoch (date ++ dayStartSuffix),
            lib.toEpoch (date ++ dayEndSuffix)⟩],
         some PyErr.indexError) := by
    simp only [loopOutcome, hm]
  rw [dataSamplerDevice_decomp, h1,
    loopOutcome_append w lib base dev date dp _ _ pre (m :: rest) h2, hcons]
  refine ⟨rfl, ?_⟩
  show applyWrites _ fs _ = none
  rw [List.append_nil]
  rw [applyWrites_not_mem _ fs _ h5]
  exact h6

/-- Witness for C10: a single-metric device whose response packs no
value at its one timestamp. -/
theorem c10_empty_value_list_index_error_witness :
    (dataSamplerDevice wBad lib0 scenarioStation.id scenarioModule
        scenarioDate outDirW (emptyFS Int)).err = some PyErr.indexError
    ∧ (dataSamplerDevice wBad lib0 scenarioStation.id scenarioModule
        scenarioDate outDirW (emptyFS Int)).fs
        (filePath outDirW scenarioDate scenarioModule.module_name mtypeRain)
      = none :=
  c10_empty_value_list_index_error Int wBad lib0 scenarioStation.id
    scenarioModule scenarioDate outDirW (emptyFS Int) [] [] mtypeRain
    [(0, [])] rfl rfl rfl ⟨(0, []), by decide⟩
    (by intro wr hw; simp [loopOutcome] at hw) rfl

/-- Claim C8: the Session Initializer fails with `FileNotFoundError`
exactly when no credentials record is supplied and the local
credentials file does not exist; that failure happens before any
network activity, and whenever credentials are available from either
source the initializer proceeds to the external token exchange and
returns its (propagated) result. -/
theorem c8_init_fails_iff_no_credentials (α : Type) (env : InitEnv α)
    (auth : Option AuthConfig) :
    ((initWsd env auth).1 = Except.error PyErr.fileNotFoundError
        ↔ (auth = none ∧ env.configFile = none))
    ∧ ((auth = none ∧ env.configFile = none) →
        initWsd env auth
          = (Except.error PyErr.fileNotFoundError, ([] : List NetEvent)))
    ∧ (∀ a, auth = some a →
        initWsd env auth
          = (mapApiErr (env.clientAuth a), [NetEvent.tokenExchange]))
    ∧ (∀ a, auth = none → env.configFile = some a →
        initWsd env auth
          = (mapApiErr (env.clientAuth a), [NetEvent.tokenExchange])) := by
  cases auth with
  | some a =>
    cases h : env.clientAuth a <;> simp [initWsd, mapApiErr, h]
  | none =>
    cases hc : env.configFile with
    | some a =>
      cases h : env.clientAuth a <;> simp [initWsd, mapApiErr, h, hc]
    | none => simp [initWsd, hc]

/-- Witness for C8: with neither credentials source the initializer
fails with `FileNotFoundError` and performs no network activity. -/
theorem c8_init_fails_iff_no_credentials_witness :
    initWsd initNone none
      = (Except.error PyErr.fileNotFoundError, ([] : List NetEvent)) :=
  (c8_init_fails_iff_no_credentials Int initNone none).2.1 ⟨rfl, rfl⟩

/-- Claim C9: with any non-empty station listing,
`data_sampler_stations` raises `TypeError` before writing any output
file and before issuing any measurement request — both call sites pass
`_data_sampler_device` four arguments where its signature requires five
(the output-directory argument `dp` is omitted and the computed
`dp_save` is never used). -/
theorem c9_nonempty_stations_type_error (α : Type) (sys : SysEnv α)
    (w : WSD α) (date dp_save : Option String) (fs : FS α)
    (h : w.stations ≠ []) :
    (dataSamplerStations sys (some w) date dp_save fs).1
      = ⟨fs, [], some PyErr.typeError⟩ := by
  rcases List.exists_cons_of_ne_nil h with ⟨⟨k, st⟩, rest, hs⟩
  simp [dataSamplerStations, walkerBody, hs, stationLoop,
    callDataSamplerDevice]

/-- Witness for C9 at the scenario station listing. -/
theorem c9_nonempty_stations_type_error_witness :
    (dataSamplerStations scenarioSys (some scenarioWsd) none
        (some outDirW) (emptyFS Int)).1
      = ⟨emptyFS Int, [], some PyErr.typeError⟩ :=
  c9_nonempty_stations_type_error Int scenarioSys scenarioWsd none
    (some outDirW) (emptyFS Int) (by decide)

/-- Claim C1 (code bug): on the spec's walkthrough scenario — one
station `S1` named `Outdoor` with metric `Temperature` and one child
module `M1` named `Rain` with metric `Rain`, date `2024-03-01` — the
spec expects the two files `2024-03-01_Outdoor_Temperature.csv` and
`2024-03-01_Rain_Rain.csv` and a module fetch addressed by parent `S1`
and device `M1`; the code instead raises `TypeError` at the first
four-argument call of `_data_sampler_device`, leaving the file system
untouched and issuing no measurement request at all. -/
theorem c1_scenario_walker_type_error :
    dataSamplerStations scenarioSys (some scenarioWsd)
        (some scenarioDate) none (emptyFS Int)
      = (⟨emptyFS Int, [], some PyErr.typeError⟩, 0) := rfl

/-- Claim C2 (code bug): `data_sampler_stations` never writes a file at
all — under any session, date and `dp_save`, the resulting file system
equals the initial one, because the computed `dp_save` is never passed
on and every per-device call aborts with `TypeError` (an empty listing
writes nothing either).  The spec instead requires the produced CSVs to
land under `dp_save`, or under the default data directory when it is
not supplied. -/
theorem c2_walker_writes_no_files (α : Type) (sys : SysEnv α)
    (wsd : Option (WSD α)) (date dp_save : Option String) (fs : FS α) :
    ((dataSamplerStations sys wsd date dp_save fs).1).fs = fs := by
  have hbody : ∀ w : WSD α, (walkerBody sys w date dp_save fs).fs = fs := by
    intro w
    unfold walkerBody
    rcases hs : w.stations with _ | ⟨⟨k, st⟩, rest⟩
    · rfl
    · simp [stationLoop, callDataSamplerDevice]
  cases wsd with
  | some w => simpa [dataSamplerStations] using hbody w
  | none =>
    cases hi : (initWsd sys.init none).1 with
    | error e => simp [dataSamplerStations, hi]
    | ok w => simpa [dataSamplerStations, hi] using hbody w

/-- Subtracting whole days shifts the floored day index by as much
(`timedelta.days` floors, and the divisor is a positive constant). -/
theorem fdiv_day_shift (a m : Int) :
    Int.fdiv (a - m * dayLen) dayLen = Int.fdiv a dayLen - m := by
  rw [Int.fdiv_eq_ediv _ (by norm_num [dayLen]),
    Int.fdiv_eq_ediv _ (by norm_num [dayLen])]
  have h : a - m * dayLen = a + (-m) * dayLen := by ring
  rw [h, Int.add_mul_ediv_right a (-m) (by norm_num [dayLen] : dayLen ≠ 0)]
  omega

/-- Prepending the day `T - (k+1)` to the ascending run of the `k` days
ending at `T - 1` yields the ascending run of `k + 1` days. -/
theorem day_run_cons (g : Int → String) (T : Int) (k : Nat) :
    g (T - ((k : Int) + 1))
        :: (List.range k).map (fun (j : Nat) => g (T - (k : Int) + (j : Int)))
      = (List.range (k + 1)).map
          (fun (j : Nat) => g (T - ((k : Int) + 1) + (j : Int))) := by
  rw [List.range_succ_eq_map, List.map_cons, List.map_map]
  congr 1
  · norm_num
  · have h : (fun (j : Nat) => g (T - (k : Int) + (j : Int)))
        = ((fun (j : Nat) => g (T - ((k : Int) + 1) + (j : Int))) ∘ Nat.succ) := by
      funext j
      simp only [Function.comp]
      congr 1
      push_cast
      ring
    rw [h]

/-- When every daily invocation returns normally, the period loop with
fuel `k` invokes the walker once per day, on the ascending run of `k`
days ending at yesterday, never re-initializing the session and raising
nothing. -/
theorem periodLoop_days (sys : SysEnv α) (w : WSD α) (dp : String)
    (hok : ∀ d fs1,
      ((dataSamplerStations sys (some w) (some d) (some dp) fs1).1).err
        = none) :
    ∀ (k : Nat) (fs : FS α),
      (periodLoop sys w dp k fs).days
          = (List.range k).map (fun (j : Nat) =>
              sys.lib.fmtDay (Int.fdiv sys.now dayLen - (k : Int) + (j : Int)))
      ∧ (periodLoop sys w dp k fs).inits = 0
      ∧ (periodLoop sys w dp k fs).err = none := by
  intro k
  induction k with
  | zero => intro fs; simp [periodLoop]
  | succ k ih =>
    intro fs
    have he := hok
      (sys.lib.fmtDay (Int.fdiv (sys.now - ((k : Int) + 1) * dayLen) dayLen)) fs
    have h2 : (dataSamplerStations sys (some w)
        (some (sys.lib.fmtDay
          (Int.fdiv (sys.now - ((k : Int) + 1) * dayLen) dayLen)))
        (some dp) fs).2 = 0 := rfl
    simp only [periodLoop, he, h2]
    obtain ⟨ihd, ihi, ihe⟩ := ih ((dataSamplerStations sys (some w)
      (some (sys.lib.fmtDay
        (Int.fdiv (sys.now - ((k : Int) + 1) * dayLen) dayLen)))
      (some dp) fs).1.fs)
    refine ⟨?_, by simp [ihi], ihe⟩
    rw [ihd, fdiv_day_shift, day_run_cons]
    norm_num

/-- Claim C3: for every start date, `data_sampler_stations_period`
initializes the session exactly once up front and — when each daily
invocation returns normally — invokes the daily Station Walker exactly
`n = today - parse(date_start)` times when the start date lies before
today and zero times otherwise, passing it the single session handle
and, in ascending order, exactly the days from the start date through
yesterday inclusive. -/
theorem c3_period_walker_invocations (α : Type) (sys : SysEnv α)
    (w : WSD α) (date_start : String) (dp_save : Option String)
    (fs : FS α)
    (hinit : (initWsd sys.init none).1 = Except.ok w)
    (hok : ∀ d fs1,
      ((dataSamplerStations sys (some w) (some d)
          (some (optStr (storeDir sys) dp_save)) fs1).1).err = none) :
    (dataSamplerStationsPeriod sys date_start dp_save fs).days
        = (List.range
            (Int.fdiv sys.now dayLen - sys.lib.parseDay date_start).toNat).map
            (fun (j : Nat) =>
              sys.lib.fmtDay (sys.lib.parseDay date_start + (j : Int)))
    ∧ (dataSamplerStationsPeriod sys date_start dp_save fs).days.length
        = (Int.fdiv sys.now dayLen - sys.lib.parseDay date_start).toNat
    ∧ (Int.fdiv sys.now dayLen ≤ sys.lib.parseDay date_start →
        (dataSamplerStationsPeriod sys date_start dp_save fs).days = [])
    ∧ (dataSamplerStationsPeriod sys date_start dp_save fs).inits = 1 := by
  have hdays : (dataSamplerStationsPeriod sys date_start dp_save fs).days
      = (List.range
          (Int.fdiv sys.now dayLen - sys.lib.parseDay date_start).toNat).map
          (fun (j : Nat) =>
            sys.lib.fmtDay (sys.lib.parseDay date_start + (j : Int)))
      ∧ (dataSamplerStationsPeriod sys date_start dp_save fs).inits = 1 := by
    simp only [dataSamplerStationsPeriod, hinit]
    rw [fdiv_day_shift]
    obtain ⟨hd, hi, _⟩ := periodLoop_days sys w (optStr (storeDir sys) dp_save)
      hok (Int.fdiv sys.now dayLen - sys.lib.parseDay date_start).toNat fs
    refine ⟨?_, by simp [hi]⟩
    rw [hd]
    rcases le_or_lt (sys.lib.parseDay date_start) (Int.fdiv sys.now dayLen)
      with hle | hlt
    · have hcast : ((Int.fdiv sys.now dayLen
          - sys.lib.parseDay date_start).toNat : Int)
          = Int.fdiv sys.now dayLen - sys.lib.parseDay date_start :=
        Int.toNat_of_nonneg (by omega)
      refine List.map_congr_left ?_
      intro j _
      congr 1
      omega
    · have hz : (Int.fdiv sys.now dayLen
          - sys.lib.parseDay date_start).toNat = 0 :=
        Int.toNat_of_nonpos (by omega)
      rw [hz]
      simp
  refine ⟨hdays.1, ?_, ?_, hdays.2⟩
  · rw [hdays.1]
    simp
  · intro hle
    rw [hdays.1]
    have hz : (Int.fdiv sys.now dayLen
        - sys.lib.parseDay date_start).toNat = 0 :=
      Int.toNat_of_nonpos (by omega)
    rw [hz]
    simp

/-- Witness for C3: clock two days past the epoch, start date parsing
to day zero, no stations — two invocations, one initialization. -/
theorem c3_period_walker_invocations_witness :
    (dataSamplerStationsPeriod sysW scenarioDate none (emptyFS Int)).days.length
        = 2
    ∧ (dataSamplerStationsPeriod sysW scenarioDate none (emptyFS Int)).inits
        = 1 := by
  have h := c3_period_walker_invocations Int sysW wEmpty scenarioDate none
    (emptyFS Int) rfl (fun d fs1 => rfl)
  refine ⟨?_, h.2.2.2⟩
  rw [h.2.1]
  decide

end Netatmo
